import Mathlib

/-!
Verification development for a deploy-script analysis tool (src/super.py).
The tool scans a directory for shell scripts named deploy_server_*.sh,
parses each one into a working directory and a list of commands, classifies
the referenced project via its package.json, and emits deployment entries
as JSON or as a generated shell script.  Strings are modelled as lists of
characters; the filesystem is modelled as explicit data passed to the
functions that read it.
-/

/-- Character strings, as the analyzer manipulates them. -/
abbrev Chars := List Char

/-- Whitespace in the sense of Python's str.strip and the regex class \s. -/
def isPyWs (c : Char) : Bool :=
  c == ' ' || c == '\t' || c == '\n' || c == '\x0d' || c == '\x0b' || c == '\x0c'

/-- Python str.strip: remove leading and trailing whitespace. -/
def stripL (l : Chars) : Chars :=
  ((l.dropWhile isPyWs).reverse.dropWhile isPyWs).reverse

/-- Python str.split on the newline character. -/
def splitNl : Chars → List Chars
  | [] => [[]]
  | c :: rest =>
    if c = '\n' then [] :: splitNl rest
    else
      match splitNl rest with
      | [] => [[c]]
      | l :: ls => (c :: l) :: ls

/-- The preprocessed lines of a script (super.py line 83): each raw line is
stripped; blank lines and lines whose stripped form begins with a comment
character are removed. -/
def scriptLines (content : Chars) : List Chars :=
  ((splitNl content).map stripL).filter (fun l => !l.isEmpty && !(l.head? == some '#'))

/-- One attempt of the regex `cd\s+(.+?)(?:\s|$)` anchored at the start of
`l`: the literal `cd`, then a greedy whitespace run, then a lazy group ended
by the next whitespace or the end of the line.  When the whitespace run
reaches the end of the line the engine backtracks, so with at least two
trailing whitespace characters the group captures the final one; with
exactly one it fails at this position. -/
def cdGroup (c : Char) (rest : Chars) : Option Chars :=
  if isPyWs c then
    match (c :: rest).dropWhile isPyWs with
    | [] =>
      match rest with
      | [] => none
      | _ :: _ => some [(c :: rest).getLastD c]
    | t => some (t.takeWhile (fun x => !isPyWs x))
  else none

/-- The anchored attempt: the literal `cd` at the head of the line, then the
group computed from what follows. -/
def tryCdHere : Chars → Option Chars
  | 'c' :: 'd' :: c :: rest => cdGroup c rest
  | _ => none

/-- re.search with the pattern of super.py line 96: try the anchored match at
every position from the left and return the first capture group found. -/
def cdSearch : Chars → Option Chars
  | [] => none
  | c :: rest =>
    match tryCdHere (c :: rest) with
    | some t => some t
    | none => cdSearch rest

/-- The loop of super.py lines 97-100: every line is searched, and each match
overwrites the previously recorded working directory. -/
def findWorkingDir (lines : List Chars) : Option Chars :=
  lines.foldl (fun acc line =>
    match cdSearch line with
    | some d => some d
    | none => acc) none

/-- Python `line.startswith('cd ')`, the exclusion test of super.py line 104. -/
def startsWithCdSpace (l : Chars) : Bool :=
  match l with
  | 'c' :: 'd' :: ' ' :: _ => true
  | _ => false

/-- The command collection loop of super.py lines 103-107. -/
def commandLines (lines : List Chars) : List Chars :=
  lines.filter (fun l => !startsWithCdSpace l && !l.isEmpty)

/-! ## The project-type detector (super.py lines 15-73) -/

/-- JSON values, as produced by json.load on the manifest file. -/
inductive JVal where
  | jnull : JVal
  | jbool : Bool → JVal
  | jnum : Int → JVal
  | jstr : Chars → JVal
  | jarr : List JVal → JVal
  | jobj : List (Chars × JVal) → JVal

/-- Lookup in a Python dict built from a JSON object: with duplicate keys
json.load keeps the last binding. -/
def dictGet (fields : List (Chars × JVal)) (k : Chars) : Option JVal :=
  fields.foldl (fun acc f => if f.1 == k then some f.2 else acc) none

/-- Python `pkg.get(key, {})`: raises AttributeError unless `pkg` is a dict;
a missing key yields the empty-dict default. -/
def pyGet (pkg : JVal) (k : Chars) : Except Unit JVal :=
  match pkg with
  | .jobj fields =>
    match dictGet fields k with
    | some v => .ok v
    | none => .ok (.jobj [])
  | _ => .error ()

/-- Python `{**a, **b}`: raises TypeError unless both operands are mappings;
for key membership the concatenation realizes the merge. -/
def pyMergeDicts : JVal → JVal → Except Unit (List (Chars × JVal))
  | .jobj f1, .jobj f2 => .ok (f1 ++ f2)
  | _, _ => .error ()

/-- Python string equality against a json.load value ('build' == v). -/
def pyEqStr (needle : Chars) (v : JVal) : Bool :=
  match v with
  | .jstr s => s == needle
  | _ => false

/-- Does `p` occur as a leading segment of `l`? -/
def leadsWith : Chars → Chars → Bool
  | [], _ => true
  | _ :: _, [] => false
  | a :: as, b :: bs => a == b && leadsWith as bs

/-- Does `p` occur as a trailing segment of `l`? -/
def trailsWith (p l : Chars) : Bool :=
  leadsWith p.reverse l.reverse

/-- Python substring containment (needle in haystack for strings). -/
def isSubstring (n : Chars) : Chars → Bool
  | [] => leadsWith n []
  | c :: t => leadsWith n (c :: t) || isSubstring n t

/-- Python `needle in container` on a json.load value: key membership for a
dict, element equality for a list, substring for a string; TypeError for
numbers, booleans and None. -/
def pyContains (needle : Chars) : JVal → Except Unit Bool
  | .jobj fields => .ok (fields.any (fun f => f.1 == needle))
  | .jarr xs => .ok (xs.any (pyEqStr needle))
  | .jstr s => .ok (isSubstring needle s)
  | _ => .error ()

/-- The classification record returned by detect_project_type. -/
structure ProjectType where
  type : Chars
  category : Chars
  build_command : Option Chars
  description : Chars
deriving DecidableEq

def viteType : ProjectType :=
  { type := "vite".data, category := "static".data,
    build_command := some ( "npm run build".data),
    description := "Vite 静态网页项目".data }

def craType : ProjectType :=
  { type := "cra".data, category := "static".data,
    build_command := some ( "npm run build".data),
    description := "Create React App 项目".data }

def vueCliType : ProjectType :=
  { type := "vue-cli".data, category := "static".data,
    build_command := some ( "npm run build".data),
    description := "Vue CLI 项目".data }

def frontendType : ProjectType :=
  { type := "frontend".data, category := "static".data,
    build_command := some ( "npm run build".data),
    description := "前端项目（通用）".data }

def unknownType : ProjectType :=
  { type := "unknown".data, category := "unknown".data,
    build_command := none,
    description := "未知项目类型".data }

/-- super.py lines 26-27: read the scripts value and the merged dependency
dict from the parsed manifest; any Python exception is propagated to the
enclosing handler. -/
def manifestEnv (pkg : JVal) : Except Unit (JVal × List (Chars × JVal)) :=
  match pyGet pkg ( "scripts".data) with
  | .error e => .error e
  | .ok scripts =>
    match pyGet pkg ( "dependencies".data) with
    | .error e => .error e
    | .ok d1 =>
      match pyGet pkg ( "devDependencies".data) with
      | .error e => .error e
      | .ok d2 =>
        match pyMergeDicts d1 d2 with
        | .error e => .error e
        | .ok deps => .ok (scripts, deps)

/-- The body of the try block of super.py lines 22-63, after json.load has
succeeded: compute scripts/dependencies, then apply the classification rules
in order (vite config file, react-scripts, @vue/cli-service, build script).
`.ok none` is falling off the end of the chain without a match. -/
def detectFromPkg (pkg : JVal) (vTs vJs : Bool) : Except Unit (Option ProjectType) :=
  match manifestEnv pkg with
  | .error e => .error e
  | .ok (scripts, dependencies) =>
    if vTs || vJs then .ok (some viteType)
    else if dependencies.any (fun f => f.1 == "react-scripts".data) then .ok (some craType)
    else if dependencies.any (fun f => f.1 == "@vue/cli-service".data) then .ok (some vueCliType)
    else
      match pyContains ( "build".data) scripts with
      | .error e => .error e
      | .ok true => .ok (some frontendType)
      | .ok false => .ok none

/-- What the detector can observe about a project directory: whether
package.json exists and what json.load makes of it (`none` = file absent,
`some none` = json.load raises, `some (some v)` = parsed value), and whether
the two vite config files exist. -/
structure ProjectDirState where
  packageJson : Option (Option JVal)
  viteTs : Bool
  viteJs : Bool

/-- detect_project_type (super.py lines 15-73): absent or unparseable
manifest, any exception inside the try block, and no rule matching all fall
through to the unknown record. -/
def detect_project_type (d : ProjectDirState) : ProjectType :=
  match d.packageJson with
  | some (some pkg) =>
    match detectFromPkg pkg d.viteTs d.viteJs with
    | .ok (some pt) => pt
    | _ => unknownType
  | _ => unknownType

/-! ## The per-script analyzer (super.py lines 76-125) -/

/-- The record built by analyze_deploy_script. -/
structure AnalysisResult where
  script : Chars
  working_dir : Option Chars
  commands : List Chars
  current_command : Option Chars
  project_type : Option ProjectType
  recommended_command : Option Chars
deriving DecidableEq

/-- Python truthiness of an optional string: None and the empty string are
falsy. -/
def pyTruthy : Option Chars → Bool
  | some s => !s.isEmpty
  | none => false

/-- super.py lines 113-123: when the working directory is truthy and the
resolved project path exists (`fs` returns its observable state), run the
detector and choose the recommended command: the build command when truthy,
the current command otherwise. -/
def detectPhase (fs : Chars → Option ProjectDirState) (wd cur : Option Chars) :
    Option ProjectType × Option Chars :=
  if pyTruthy wd then
    match fs (wd.getD []) with
    | some pds =>
      let pt := detect_project_type pds
      (some pt, if pyTruthy pt.build_command then pt.build_command else cur)
    | none => (none, none)
  else (none, none)

/-- analyze_deploy_script (super.py lines 76-125).  `name` is the basename of
the script, `content` the text of the file, and `fs` maps a working-directory
string to the observable state of script_dir/working_dir, or `none` when that
path does not exist. -/
def analyze_deploy_script (name content : Chars)
    (fs : Chars → Option ProjectDirState) : AnalysisResult :=
  let lines := scriptLines content
  let wd := findWorkingDir lines
  let cmds := commandLines lines
  let cur := cmds.getLast?
  let pr := detectPhase fs wd cur
  { script := name, working_dir := wd, commands := cmds,
    current_command := cur, project_type := pr.1, recommended_command := pr.2 }

/-! ## Script discovery and the machine-readable outputs -/

/-- The glob pattern deploy_server_*.sh: since the literal prefix and suffix
cannot overlap, a name matches exactly when it carries both. -/
def matchesScriptPattern (n : Chars) : Bool :=
  leadsWith ( "deploy_server_".data) n && trailsWith ( ".sh".data) n

/-- Lexicographic comparison of strings by code point, as Python compares
the equally-prefixed script paths when sorting them. -/
def strLe : Chars → Chars → Bool
  | [], _ => true
  | _ :: _, [] => false
  | a :: as, b :: bs =>
    if a.val < b.val then true
    else if a.val = b.val then strLe as bs
    else false

/-- Directory scan: `files` is the listing of the target directory as pairs
(name, content); the matching scripts are processed in sorted name order. -/
def discoverScripts (files : List (Chars × Chars)) : List (Chars × Chars) :=
  List.insertionSort (fun a b => strLe a.1 b.1 = true)
    (files.filter (fun f => matchesScriptPattern f.1))

/-- Analyze every discovered script, in sorted order. -/
def runPipeline (files : List (Chars × Chars))
    (fs : Chars → Option ProjectDirState) : List AnalysisResult :=
  (discoverScripts files).map (fun f => analyze_deploy_script f.1 f.2 fs)

/-- The JSON output record. -/
structure DeployEntry where
  dir : Chars
  command : Chars
  type : Chars
deriving DecidableEq

/-- One iteration of the JSON-building loops (super.py lines 207-221 and
273-285): a result contributes an entry when its working directory and
recommended command are truthy and its project type, when present, is not of
a non-static category; the type string is the constant "frontend". -/
def entryProj (r : AnalysisResult) : Option DeployEntry :=
  if pyTruthy r.working_dir && pyTruthy r.recommended_command then
    match r.project_type with
    | some pt =>
      if pt.category == "static".data then
        some { dir := r.working_dir.getD [], command := r.recommended_command.getD [],
               type := "frontend".data }
      else none
    | none =>
      some { dir := r.working_dir.getD [], command := r.recommended_command.getD [],
             type := "frontend".data }
  else none

/-- The deploy_commands JSON array built from a result list. -/
def deployCommandsJson (results : List AnalysisResult) : List DeployEntry :=
  results.filterMap entryProj

/-- What the json subcommand prints. -/
inductive JsonOutput where
  | jerror : Chars → JsonOutput
  | jentries : List DeployEntry → JsonOutput
deriving DecidableEq

/-- output_json_only (super.py lines 254-287): an error object when the
target directory does not exist or no script matches, otherwise the entry
array for the sorted scripts. -/
def output_json_only (dirExists : Bool) (dirName : Chars)
    (files : List (Chars × Chars)) (fs : Chars → Option ProjectDirState) : JsonOutput :=
  if !dirExists then .jerror ( "目录不存在: ".data ++ dirName)
  else
    let scripts := discoverScripts files
    if scripts = [] then
      .jerror ( "在 ".data ++ dirName ++ " 目录下未找到 deploy_server_*.sh 脚本".data)
    else
      .jentries (deployCommandsJson (scripts.map (fun f => analyze_deploy_script f.1 f.2 fs)))

/-- The deploy_commands.json file written by infer_deploy_commands
(super.py lines 128-233): nothing is written when the directory is missing
or no script is found. -/
def infer_deploy_commands_savedJson (dirExists : Bool)
    (files : List (Chars × Chars)) (fs : Chars → Option ProjectDirState) :
    Option (List DeployEntry) :=
  if !dirExists then none
  else
    let scripts := discoverScripts files
    if scripts = [] then none
    else some (deployCommandsJson (scripts.map (fun f => analyze_deploy_script f.1 f.2 fs)))

/-! ## The shell-script generator (super.py lines 290-398) -/

/-- The fixed header of the generated script (super.py lines 325-338). -/
def headerLines (baseDir : Chars) : List Chars :=
  [ "#!/bin/bash".data,
    "# 自动生成的部署脚本".data,
    "# 功能: 进入目录、执行构建命令、复制dist产物到/website目录".data,
    "".data,
    "set -e  # 遇到错误立即退出".data,
    "".data,
    "# 输出目录".data,
    "OUTPUT_DIR=\"$1\"".data,
    "# 脚本基础目录".data,
    "BASE_DIR=\"".data ++ baseDir ++ "\"".data,
    "cd \"$BASE_DIR\"".data,
    "".data ]

/-- The per-project fragment appended by super.py lines 359-385, with the
comment describing the project type present exactly when a type was
detected. -/
def blockLines (script : Chars) (desc : Option Chars) (wd bc : Chars) : List Chars :=
  [ "# 项目: ".data ++ script ] ++
  (match desc with
   | some d => [ "# 类型: ".data ++ d ]
   | none => []) ++
  [ "".data,
    "echo \"进入目录: ".data ++ wd ++ "\"".data,
    "cd \"$BASE_DIR/".data ++ wd ++ "\"".data,
    "".data,
    "echo \"执行构建命令: ".data ++ bc ++ "\"".data,
    bc,
    "".data,
    "echo \"复制dist产物到$\x7bOUTPUT_DIR\x7d目录\"".data,
    "if [ -d \"$BASE_DIR/".data ++ wd ++ "/dist\" ]; then".data,
    "    mkdir -p $OUTPUT_DIR".data,
    "    cp -r dist/* $OUTPUT_DIR".data,
    "    echo \"复制完成\"".data,
    "else".data,
    "    echo \"警告: dist目录不存在，跳过复制\"".data,
    "fi".data,
    "".data,
    "echo \"---\"".data,
    "".data ]

/-- One iteration of the generator loop (super.py lines 341-385): skipped
when working directory or recommended command is falsy, or when a detected
project type is of a non-static category; for a static project the build
command is prefixed with the dependency install. -/
def generateBlock (r : AnalysisResult) : List Chars :=
  if pyTruthy r.working_dir && pyTruthy r.recommended_command then
    match r.project_type with
    | some pt =>
      if pt.category == "static".data then
        blockLines r.script (some pt.description) (r.working_dir.getD [])
          ( "npm install && ".data ++ r.recommended_command.getD [])
      else []
    | none =>
      blockLines r.script none (r.working_dir.getD []) (r.recommended_command.getD [])
  else []

/-- What the script subcommand emits. -/
inductive ScriptOutput where
  | serror : Chars → ScriptOutput
  | slines : List Chars → ScriptOutput
deriving DecidableEq

/-- generate_shell_script (super.py lines 290-398), as the list of lines of
the generated script; error reports on a missing directory or empty
discovery. -/
def generate_shell_script (dirExists : Bool) (dirName : Chars)
    (files : List (Chars × Chars)) (fs : Chars → Option ProjectDirState) : ScriptOutput :=
  if !dirExists then .serror ( "错误: 目录不存在: ".data ++ dirName)
  else
    let scripts := discoverScripts files
    if scripts = [] then
      .serror ( "在 ".data ++ dirName ++ " 目录下未找到 deploy_server_*.sh 脚本".data)
    else
      .slines (headerLines dirName ++
        ((scripts.map (fun f => analyze_deploy_script f.1 f.2 fs)).map generateBlock).flatten)

/-- The marker with which every per-project directory change of the
generated script begins. -/
def cdMarker : Chars := "cd \"$BASE_DIR/".data

/-- The directory a generated line changes into, when it is a
`cd "$BASE_DIR/..."` line: the text between the marker and the closing
quote. -/
def cdTargetOf (l : Chars) : Option Chars :=
  if leadsWith cdMarker l then some ((l.drop cdMarker.length).dropLast) else none

/-- The sequence of directories (relative to the base directory) that a
generated script changes into: the targets of its `cd "$BASE_DIR/..."`
lines, in order. -/
def cdTargets (lines : List Chars) : List Chars :=
  lines.filterMap cdTargetOf

/-- The directory sequence of a script-generation outcome. -/
def scriptCdSeq : ScriptOutput → List Chars
  | .slines ls => cdTargets ls
  | .serror _ => []

/-- The dir fields of a json-generation outcome. -/
def jsonDirSeq : JsonOutput → List Chars
  | .jentries es => es.map (fun e => e.dir)
  | .jerror _ => []

/-! ## A concrete scenario used to exercise the pipeline -/

/-- A project directory with an empty but valid manifest and a
vite.config.ts. -/
def pdsVite : ProjectDirState := ⟨some (some (.jobj [])), true, false⟩

/-- A filesystem in which only the path "app" exists, as `pdsVite`. -/
def fsApp : Chars → Option ProjectDirState :=
  fun d => if d = "app".data then some pdsVite else none

/-- A deploy script that enters app and starts a dev server. -/
def contentApp : Chars := "cd app\nnpm run dev".data

/-- A directory listing holding one matching script. -/
def filesApp : List (Chars × Chars) := [( "deploy_server_a.sh".data, contentApp)]

/-- Modelled from the claim's wording: a change-directory line is a stripped,
non-comment, non-blank line that *starts* with the change-directory keyword,
followed by whitespace and a path token ending at the next whitespace. -/
def claimCdLine (l : Chars) : Bool :=
  match l with
  | 'c' :: 'd' :: c :: rest => isPyWs c && !((c :: rest).dropWhile isPyWs).isEmpty
  | _ => false

/-- A project directory whose package.json exists but fails to parse. -/
def pdsBadJson : ProjectDirState := ⟨some none, true, true⟩

/-- A filesystem in which "app" is a directory with an unparseable
manifest. -/
def fsBadJson : Chars → Option ProjectDirState :=
  fun d => if d = "app".data then some pdsBadJson else none

/-- A filesystem with no existing directories at all. -/
def fsEmpty : Chars → Option ProjectDirState := fun _ => none

/-- The entry produced for the concrete vite scenario. -/
def entryApp : DeployEntry :=
  { dir := "app".data, command := "npm run build".data, type := "frontend".data }

/-- A manifest declaring both a react-scripts dependency and a non-build
scripts entry. -/
def pkgReact : JVal :=
  .jobj [( "scripts".data, .jobj [( "build".data, .jstr ( "serve".data))]),
         ( "dependencies".data, .jobj [( "react-scripts".data, .jstr ( "5.0.0".data))])]

/-- The specification-side projection of C6: keep exactly the results whose
detected category is static, as {dir, command, "frontend"} records. -/
def staticProjection (r : AnalysisResult) : Option DeployEntry :=
  match r.project_type with
  | some pt =>
    if pt.category == "static".data then
      some { dir := r.working_dir.getD [], command := r.recommended_command.getD [],
             type := "frontend".data }
    else none
  | none => none

/-! ## Validation of the model on concrete inputs -/

example : scriptLines ( "  cd app \n# c\n\n npm run dev".data) =
    [ "cd app".data, "npm run dev".data] := by decide

example : cdSearch ( "echo cd foo".data) = some ( "foo".data) := by decide

example : cdSearch ( "cd   a  b".data) = some ( "a".data) := by decide

example : cdSearch ( "cdx cd y".data) = some ( "y".data) := by decide

example : cdSearch ( "x cd".data) = none := by decide

example : cdSearch ( "cd".data) = none := by decide

example : cdSearch ( "cd app && npm i".data) = some ( "app".data) := by decide

example : detect_project_type ⟨some (some (.jobj [])), true, false⟩ = viteType := by decide

example : detect_project_type ⟨some (some (.jarr [])), true, false⟩ = unknownType := by decide

example : detect_project_type ⟨none, true, true⟩ = unknownType := by decide

example : detect_project_type
    ⟨some (some (.jobj [( "scripts".data, .jobj [( "build".data, .jstr ( "x".data))])])),
      false, false⟩ = frontendType := by decide

example : detect_project_type
    ⟨some (some (.jobj [( "dependencies".data, .jobj [( "react-scripts".data, .jstr ( "5".data))])])),
      false, false⟩ = craType := by decide

example : detect_project_type
    ⟨some (some (.jobj [( "dependencies".data, .jarr [])])), true, false⟩ = unknownType := by decide

example : (analyze_deploy_script ( "deploy_server_a.sh".data) contentApp fsApp).working_dir
    = some ( "app".data) := by decide

example : (analyze_deploy_script ( "deploy_server_a.sh".data) contentApp fsApp).recommended_command
    = some ( "npm run build".data) := by decide

example : output_json_only true ( "t".data) filesApp fsApp =
    .jentries [{ dir := "app".data, command := "npm run build".data, type := "frontend".data }] := by
  decide

example : scriptCdSeq (generate_shell_script true ( "t".data) filesApp fsApp)
    = [ "app".data] := by decide

example : jsonDirSeq (output_json_only true ( "t".data) filesApp fsApp)
    = [ "app".data] := by decide

example : cdSearch ( "cd  ".data) = some ( " ".data) := by decide

example : cdSearch ( "cd ".data) = none := by decide

example : cdSearch ( "cd\tfoo".data) = some ( "foo".data) := by decide

example : cdSearch ( "cd cd foo".data) = some ( "cd".data) := by decide

example : cdSearch ( "abcd foo".data) = some ( "foo".data) := by decide

example : detect_project_type
    ⟨some (some (.jobj [( "scripts".data, .jstr ( "rebuild all".data))])), false, false⟩
    = frontendType := by decide

example : detect_project_type
    ⟨some (some (.jobj [( "scripts".data, .jnum 7)])), false, false⟩ = unknownType := by decide

example : detect_project_type
    ⟨some (some (.jobj [( "scripts".data, .jarr [.jstr ( "build".data)])])), false, false⟩
    = frontendType := by decide

/-! ## Helper lemmas -/

/-- The head surviving dropWhile falsifies the predicate. -/
theorem isPyWs_head_dropWhile (l : Chars) (c : Char) (t : Chars)
    (h : l.dropWhile isPyWs = c :: t) : isPyWs c = false := by
  induction l with
  | nil => simp [List.dropWhile] at h
  | cons x xs ih =>
    rw [List.dropWhile] at h
    by_cases hx : isPyWs x = true
    · rw [hx] at h
      exact ih h
    · rw [Bool.not_eq_true] at hx
      rw [hx] at h
      simp only [List.cons.injEq] at h
      rw [← h.1]
      exact hx

/-- A successful group computation is nonempty. -/
theorem cdGroup_ne_nil (c : Char) (rest t : Chars) (h : cdGroup c rest = some t) :
    t ≠ [] := by
  unfold cdGroup at h
  split at h
  · split at h
    · split at h
      · exact absurd h (by simp)
      · simp only [Option.some.injEq] at h
        rw [← h]
        simp
    · rename_i hne
      cases hdw : List.dropWhile isPyWs (c :: rest) with
      | nil => exact absurd hdw hne
      | cons c' t' =>
        rw [hdw] at h
        have hc' : isPyWs c' = false := isPyWs_head_dropWhile _ _ _ hdw
        simp only [Option.some.injEq] at h
        rw [← h, List.takeWhile_cons, hc']
        simp
  · exact absurd h (by simp)

/-- A successful anchored match captures a nonempty group. -/
theorem tryCdHere_ne_nil (l t : Chars) (h : tryCdHere l = some t) : t ≠ [] := by
  unfold tryCdHere at h
  split at h
  · exact cdGroup_ne_nil _ _ _ h
  · exact absurd h (by simp)

/-- Every capture group that the search returns is nonempty. -/
theorem cdSearch_ne_nil (l t : Chars) (h : cdSearch l = some t) : t ≠ [] := by
  induction l with
  | nil => simp [cdSearch] at h
  | cons c rest ih =>
    rw [cdSearch] at h
    split at h
    · next t' ht' =>
      simp only [Option.some.injEq] at h
      rw [← h]
      exact tryCdHere_ne_nil _ _ ht'
    · exact ih h

/-- The working-directory fold, for any accumulator, returns the last
search hit and otherwise the accumulator. -/
theorem foldl_cd_aux (lines : List Chars) : ∀ acc : Option Chars,
    lines.foldl (fun acc line => match cdSearch line with
      | some d => some d
      | none => acc) acc =
      (match (lines.filterMap cdSearch).getLast? with
       | some d => some d
       | none => acc) := by
  induction lines with
  | nil => intro acc; rfl
  | cons l ls ih =>
    intro acc
    rw [List.foldl_cons, ih]
    cases h : cdSearch l with
    | none => simp [List.filterMap_cons, h]
    | some d =>
      simp only [List.filterMap_cons, h]
      cases hls : ls.filterMap cdSearch with
      | nil => simp
      | cons y ys =>
        rw [List.getLast?_cons_cons]
        cases hg : (y :: ys).getLast? with
        | none => simp at hg
        | some z => simp

/-- findWorkingDir is the argument of the last line on which the regex
search succeeds. -/
theorem findWorkingDir_eq_getLast (lines : List Chars) :
    findWorkingDir lines = (lines.filterMap cdSearch).getLast? := by
  rw [findWorkingDir, foldl_cd_aux]
  cases (lines.filterMap cdSearch).getLast? <;> rfl

/-- A set working directory is never the empty string. -/
theorem findWorkingDir_ne_nil (lines : List Chars) (d : Chars)
    (h : findWorkingDir lines = some d) : d ≠ [] := by
  rw [findWorkingDir_eq_getLast] at h
  have hd : d ∈ lines.filterMap cdSearch := List.mem_of_getLast?_eq_some h
  obtain ⟨l, -, hl⟩ := List.mem_filterMap.mp hd
  exact cdSearch_ne_nil _ _ hl

/-! ## C1: how working_dir is selected -/

/-- C1 counterexample: the script whose single line is `echo cd foo` has no
line starting with the change-directory keyword, yet the analyzer records
working_dir = "foo", because re.search finds the pattern mid-line.  This
refutes the claim that lines not starting with the keyword never set
working_dir. -/
theorem working_dir_set_by_midline_match :
    (analyze_deploy_script ( "deploy_server_x.sh".data) ( "echo cd foo".data)
        (fun _ => none)).working_dir = some ( "foo".data) ∧
      (scriptLines ( "echo cd foo".data)).all (fun l => !claimCdLine l) = true := by
  decide

/-- C1 (amended): working_dir equals the capture group of the last
preprocessed line on which the regex search `cd\s+(.+?)(?:\s|$)` succeeds —
the keyword may occur anywhere in the line, the argument is the token
following the matched whitespace, and a later matching line overwrites every
earlier one; when no line matches, working_dir is unset. -/
theorem working_dir_eq_last_regex_match (name content : Chars)
    (fs : Chars → Option ProjectDirState) :
    (analyze_deploy_script name content fs).working_dir
      = ((scriptLines content).filterMap cdSearch).getLast? := by
  simp only [analyze_deploy_script]
  exact findWorkingDir_eq_getLast _

/-! ## C3: the commands list -/

/-- C3 counterexample: in the script `cd<TAB>app` + `npm run dev`, the first
line is a change-directory line in the claim's sense (keyword, whitespace,
path token) — indeed it is the line that sets working_dir — yet it is kept
in `commands`, because the exclusion test is the literal prefix `cd` plus a
space.  This refutes the claim that commands contains no change-directory
line. -/
theorem commands_keep_tab_cd_line :
    ( "cd\tapp".data) ∈ (analyze_deploy_script ( "deploy_server_x.sh".data)
        ( "cd\tapp\nnpm run dev".data) (fun _ => none)).commands ∧
      claimCdLine ( "cd\tapp".data) = true ∧
      (analyze_deploy_script ( "deploy_server_x.sh".data)
        ( "cd\tapp\nnpm run dev".data) (fun _ => none)).working_dir
        = some ( "app".data) := by
  decide

/-- Every preprocessed line is nonempty. -/
theorem scriptLines_ne_nil (content : Chars) (l : Chars)
    (h : l ∈ scriptLines content) : l.isEmpty = false := by
  rw [scriptLines] at h
  have := (List.mem_filter.mp h).2
  simp only [Bool.and_eq_true, Bool.not_eq_true'] at this
  exact this.1

/-- C3 (amended): commands consists of exactly the preprocessed lines that
do not begin with the three characters `cd` + space, in their original
order (a change-directory line written with other whitespace after the
keyword, such as a tab, is retained); it is a sublist of the preprocessed
lines, and current_command is its last element when it is nonempty and
absent otherwise. -/
theorem commands_filter_characterization (name content : Chars)
    (fs : Chars → Option ProjectDirState) :
    (analyze_deploy_script name content fs).commands
        = (scriptLines content).filter (fun l => !startsWithCdSpace l) ∧
      (analyze_deploy_script name content fs).commands.Sublist (scriptLines content) ∧
      (analyze_deploy_script name content fs).current_command
        = (analyze_deploy_script name content fs).commands.getLast? := by
  have hcmd : (analyze_deploy_script name content fs).commands
      = (scriptLines content).filter (fun l => !startsWithCdSpace l) := by
    simp only [analyze_deploy_script, commandLines]
    apply List.filter_congr
    intro x hx
    rw [scriptLines_ne_nil content x hx]
    simp
  refine ⟨hcmd, ?_, rfl⟩
  rw [hcmd]
  exact List.filter_sublist _

/-! ## Unfolding lemmas for the analyzer -/

theorem analyze_wd_eq (name content : Chars) (fs : Chars → Option ProjectDirState) :
    (analyze_deploy_script name content fs).working_dir
      = findWorkingDir (scriptLines content) := rfl

theorem analyze_cur_eq (name content : Chars) (fs : Chars → Option ProjectDirState) :
    (analyze_deploy_script name content fs).current_command
      = (commandLines (scriptLines content)).getLast? := rfl

theorem analyze_pt_eq (name content : Chars) (fs : Chars → Option ProjectDirState) :
    (analyze_deploy_script name content fs).project_type
      = (detectPhase fs (findWorkingDir (scriptLines content))
          ((commandLines (scriptLines content)).getLast?)).1 := rfl

theorem analyze_rec_eq (name content : Chars) (fs : Chars → Option ProjectDirState) :
    (analyze_deploy_script name content fs).recommended_command
      = (detectPhase fs (findWorkingDir (scriptLines content))
          ((commandLines (scriptLines content)).getLast?)).2 := rfl

theorem detectPhase_of_not_truthy (fs : Chars → Option ProjectDirState)
    (wd cur : Option Chars) (hw : pyTruthy wd = false) :
    detectPhase fs wd cur = (none, none) := by
  simp [detectPhase, hw]

theorem detectPhase_of_fs_none (fs : Chars → Option ProjectDirState)
    (wd cur : Option Chars) (hw : pyTruthy wd = true)
    (hfs : fs (wd.getD []) = none) :
    detectPhase fs wd cur = (none, none) := by
  unfold detectPhase
  rw [if_pos hw, hfs]

theorem detectPhase_of_fs_some (fs : Chars → Option ProjectDirState)
    (wd cur : Option Chars) (pds : ProjectDirState) (hw : pyTruthy wd = true)
    (hfs : fs (wd.getD []) = some pds) :
    detectPhase fs wd cur = (some (detect_project_type pds),
      if pyTruthy (detect_project_type pds).build_command
      then (detect_project_type pds).build_command else cur) := by
  unfold detectPhase
  rw [if_pos hw, hfs]

/-- A working directory accepted as truthy, from the analyzer's search. -/
theorem truthy_of_findWorkingDir (lines : List Chars) (d : Chars)
    (h : findWorkingDir lines = some d) : pyTruthy (findWorkingDir lines) = true := by
  rw [h]
  have hd := findWorkingDir_ne_nil _ _ h
  cases d with
  | nil => exact absurd rfl hd
  | cons a as => rfl

/-! ## C2: the recommended-command invariant -/

/-- C2 (confirmed): whenever recommended_command is present, a project type
was attached, and the recommendation is the detector's build command when
that command is truthy (known and non-empty) and the current command
otherwise. -/
theorem recommended_command_invariant (name content : Chars)
    (fs : Chars → Option ProjectDirState)
    (h : (analyze_deploy_script name content fs).recommended_command.isSome = true) :
    ∃ pt, (analyze_deploy_script name content fs).project_type = some pt ∧
      ((pyTruthy pt.build_command = true ∧
        (analyze_deploy_script name content fs).recommended_command = pt.build_command) ∨
       (pyTruthy pt.build_command = false ∧
        (analyze_deploy_script name content fs).recommended_command
          = (analyze_deploy_script name content fs).current_command)) := by
  rw [analyze_rec_eq] at h
  rw [analyze_rec_eq, analyze_pt_eq, analyze_cur_eq]
  cases hw : pyTruthy (findWorkingDir (scriptLines content)) with
  | false =>
    rw [detectPhase_of_not_truthy fs _ _ hw] at h
    exact absurd h (by simp)
  | true =>
    cases hfs : fs ((findWorkingDir (scriptLines content)).getD []) with
    | none =>
      rw [detectPhase_of_fs_none fs _ _ hw hfs] at h
      exact absurd h (by simp)
    | some pds =>
      rw [detectPhase_of_fs_some fs _ _ pds hw hfs]
      refine ⟨detect_project_type pds, rfl, ?_⟩
      cases hb : pyTruthy (detect_project_type pds).build_command with
      | true => exact Or.inl ⟨rfl, by simp⟩
      | false => exact Or.inr ⟨rfl, by simp⟩

/-- Witness for C2 at the concrete vite scenario. -/
theorem recommended_command_invariant_witness :
    ∃ pt, (analyze_deploy_script ( "deploy_server_a.sh".data) contentApp fsApp).project_type
        = some pt ∧
      ((pyTruthy pt.build_command = true ∧
        (analyze_deploy_script ( "deploy_server_a.sh".data) contentApp fsApp).recommended_command
          = pt.build_command) ∨
       (pyTruthy pt.build_command = false ∧
        (analyze_deploy_script ( "deploy_server_a.sh".data) contentApp fsApp).recommended_command
          = (analyze_deploy_script ( "deploy_server_a.sh".data) contentApp fsApp).current_command)) :=
  recommended_command_invariant ( "deploy_server_a.sh".data) contentApp fsApp (by decide)

/-! ## C5: absent or unparseable manifest -/

/-- C5 (confirmed): when package.json is absent or json.load fails on it,
the detector returns the unknown record — it cannot raise, being a total
function — and a script resolving to such a project directory gets
project_type unknown and recommended_command equal to current_command. -/
theorem malformed_manifest_fallback (pds : ProjectDirState)
    (h : pds.packageJson = none ∨ pds.packageJson = some none) :
    detect_project_type pds = unknownType ∧
      ∀ name content fs d, fs d = some pds →
        (analyze_deploy_script name content fs).working_dir = some d →
        (analyze_deploy_script name content fs).project_type = some unknownType ∧
        (analyze_deploy_script name content fs).recommended_command
          = (analyze_deploy_script name content fs).current_command := by
  have hdet : detect_project_type pds = unknownType := by
    rcases h with h | h <;> (unfold detect_project_type; rw [h])
  refine ⟨hdet, ?_⟩
  intro name content fs d hfs hwd
  rw [analyze_wd_eq] at hwd
  have hw := truthy_of_findWorkingDir _ _ hwd
  have hfs' : fs ((findWorkingDir (scriptLines content)).getD []) = some pds := by
    rw [hwd]
    exact hfs
  rw [analyze_pt_eq, analyze_rec_eq, analyze_cur_eq,
    detectPhase_of_fs_some fs _ _ pds hw hfs', hdet]
  exact ⟨rfl, rfl⟩

/-- Witness for C5: the unparseable manifest downgrades to unknown, and the
recommendation falls back to the current command. -/
theorem malformed_manifest_fallback_witness :
    (analyze_deploy_script ( "deploy_server_a.sh".data) contentApp fsBadJson).project_type
        = some unknownType ∧
      (analyze_deploy_script ( "deploy_server_a.sh".data) contentApp fsBadJson).recommended_command
        = (analyze_deploy_script ( "deploy_server_a.sh".data) contentApp fsBadJson).current_command :=
  (malformed_manifest_fallback pdsBadJson (Or.inr rfl)).2
    ( "deploy_server_a.sh".data) contentApp fsBadJson ( "app".data) rfl (by decide)

/-! ## C9: nonexistent resolved project directory -/

/-- C9 (confirmed): when the script records a working directory but the
resolved path does not exist, no project type and no recommendation are
attached, and the result is dropped from the machine-readable entry list. -/
theorem missing_project_dir_no_entry (name content : Chars)
    (fs : Chars → Option ProjectDirState) (d : Chars)
    (hwd : (analyze_deploy_script name content fs).working_dir = some d)
    (hfs : fs d = none) :
    (analyze_deploy_script name content fs).project_type = none ∧
      (analyze_deploy_script name content fs).recommended_command = none ∧
      entryProj (analyze_deploy_script name content fs) = none ∧
      deployCommandsJson [analyze_deploy_script name content fs] = [] := by
  rw [analyze_wd_eq] at hwd
  have hw := truthy_of_findWorkingDir _ _ hwd
  have hfs' : fs ((findWorkingDir (scriptLines content)).getD []) = none := by
    rw [hwd]
    exact hfs
  have hph := detectPhase_of_fs_none fs _
    ((commandLines (scriptLines content)).getLast?) hw hfs'
  have h1 : (analyze_deploy_script name content fs).project_type = none := by
    rw [analyze_pt_eq, hph]
  have h2 : (analyze_deploy_script name content fs).recommended_command = none := by
    rw [analyze_rec_eq, hph]
  have h3 : entryProj (analyze_deploy_script name content fs) = none := by
    unfold entryProj
    rw [h2]
    simp [pyTruthy]
  exact ⟨h1, h2, h3, by simp [deployCommandsJson, h3]⟩

/-- Witness for C9: the app directory of the concrete script does not
exist. -/
theorem missing_project_dir_no_entry_witness :
    (analyze_deploy_script ( "deploy_server_a.sh".data) contentApp fsEmpty).project_type = none ∧
      (analyze_deploy_script ( "deploy_server_a.sh".data) contentApp fsEmpty).recommended_command
        = none ∧
      entryProj (analyze_deploy_script ( "deploy_server_a.sh".data) contentApp fsEmpty) = none ∧
      deployCommandsJson [analyze_deploy_script ( "deploy_server_a.sh".data) contentApp fsEmpty]
        = [] :=
  missing_project_dir_no_entry ( "deploy_server_a.sh".data) contentApp fsEmpty
    ( "app".data) (by decide) rfl

/-! ## C10: the type field of deploy entries -/

/-- C10 (confirmed): every entry of the machine-readable output — the same
projection is used by the analyze and json subcommands — carries the
constant type string "frontend", whatever the detected project kind. -/
theorem deploy_entry_type_frontend (results : List AnalysisResult) (e : DeployEntry)
    (he : e ∈ deployCommandsJson results) : e.type = "frontend".data := by
  rw [deployCommandsJson] at he
  obtain ⟨r, -, hr⟩ := List.mem_filterMap.mp he
  unfold entryProj at hr
  split at hr
  · split at hr
    · split at hr
      · simp only [Option.some.injEq] at hr
        rw [← hr]
      · exact absurd hr (by simp)
    · simp only [Option.some.injEq] at hr
      rw [← hr]
  · exact absurd hr (by simp)

/-- Witness for C10 at the concrete vite scenario. -/
theorem deploy_entry_type_frontend_witness : entryApp.type = "frontend".data :=
  deploy_entry_type_frontend (runPipeline filesApp fsApp) entryApp (by decide)

/-! ## C8: the json subcommand's error object -/

/-- C8 (confirmed): when the target directory does not exist or no script
matches the pattern, the json subcommand prints an error object rather than
an entry array; being a total function of its inputs, this path raises no
exception. -/
theorem json_error_object_on_failure (dirExists : Bool) (dirName : Chars)
    (files : List (Chars × Chars)) (fs : Chars → Option ProjectDirState)
    (h : dirExists = false ∨ discoverScripts files = []) :
    ∃ msg, output_json_only dirExists dirName files fs = .jerror msg := by
  rcases h with h | h
  · refine ⟨ "目录不存在: ".data ++ dirName, ?_⟩
    rw [h]
    rfl
  · cases dirExists with
    | false => exact ⟨ "目录不存在: ".data ++ dirName, rfl⟩
    | true =>
      refine ⟨ "在 ".data ++ dirName ++ " 目录下未找到 deploy_server_*.sh 脚本".data, ?_⟩
      simp [output_json_only, h]

/-- Witness for C8: a missing target directory. -/
theorem json_error_object_on_failure_witness :
    ∃ msg, output_json_only false ( "x".data) [] fsEmpty = .jerror msg :=
  json_error_object_on_failure false ( "x".data) [] fsEmpty (Or.inl rfl)

/-! ## C4: priority of the bundler config file -/

/-- C4 counterexample: a manifest that parses as the JSON array `[]` is
present and parseable, and vite.config.ts exists, yet the detector returns
unknown — pkg.get raises AttributeError before the vite rule is reached and
the handler downgrades to unknown.  This refutes the claim that a parseable
manifest plus a bundler config always yields the bundler classification. -/
theorem vite_array_manifest_unknown :
    detect_project_type ⟨some (some (.jarr [])), true, false⟩ = unknownType ∧
      unknownType.category ≠ "static".data := by
  decide

/-- C4 (amended): when the manifest parses to a JSON object from which the
scripts value and the merged dependency dict can be extracted without a
Python exception (its dependencies and devDependencies entries, when
present, are objects), the presence of vite.config.ts or vite.config.js
yields the bundler classification — static with build command
npm run build — regardless of the declared scripts and dependencies. -/
theorem vite_priority_amended (pkg : JVal) (vTs vJs : Bool)
    (env : JVal × List (Chars × JVal)) (henv : manifestEnv pkg = .ok env)
    (hv : (vTs || vJs) = true) :
    detect_project_type ⟨some (some pkg), vTs, vJs⟩ = viteType := by
  obtain ⟨scripts, deps⟩ := env
  have hbody : detectFromPkg pkg vTs vJs = .ok (some viteType) := by
    unfold detectFromPkg
    rw [henv]
    simp [hv]
  show (match detectFromPkg pkg vTs vJs with
        | .ok (some pt) => pt
        | _ => unknownType) = viteType
  rw [hbody]

/-- Witness for C4 (amended): the vite config file wins over the declared
react-scripts dependency and scripts entry. -/
theorem vite_priority_amended_witness :
    detect_project_type ⟨some (some pkgReact), true, false⟩ = viteType :=
  vite_priority_amended pkgReact true false
    (.jobj [( "build".data, .jstr ( "serve".data))],
      [( "react-scripts".data, .jstr ( "5.0.0".data))])
    rfl rfl

/-! ## C6: the output is the static projection -/

/-- Every classification arriving through the try block is one of the four
frontend records. -/
theorem detectFromPkg_cases (pkg : JVal) (a b : Bool) (pt : ProjectType)
    (h : detectFromPkg pkg a b = .ok (some pt)) :
    pt = viteType ∨ pt = craType ∨ pt = vueCliType ∨ pt = frontendType := by
  unfold detectFromPkg at h
  split at h
  · exact absurd h (by simp)
  · split at h
    · simp only [Except.ok.injEq, Option.some.injEq] at h
      exact Or.inl h.symm
    · split at h
      · simp only [Except.ok.injEq, Option.some.injEq] at h
        exact Or.inr (Or.inl h.symm)
      · split at h
        · simp only [Except.ok.injEq, Option.some.injEq] at h
          exact Or.inr (Or.inr (Or.inl h.symm))
        · split at h
          · exact absurd h (by simp)
          · simp only [Except.ok.injEq, Option.some.injEq] at h
            exact Or.inr (Or.inr (Or.inr h.symm))
          · exact absurd h (by simp)

/-- The detector returns one of five fixed records. -/
theorem detect_cases (pds : ProjectDirState) :
    detect_project_type pds = viteType ∨ detect_project_type pds = craType ∨
      detect_project_type pds = vueCliType ∨ detect_project_type pds = frontendType ∨
      detect_project_type pds = unknownType := by
  unfold detect_project_type
  split
  · rename_i pkg hpk
    cases hd : detectFromPkg pkg pds.viteTs pds.viteJs with
    | error e => exact Or.inr (Or.inr (Or.inr (Or.inr rfl)))
    | ok o =>
      cases o with
      | none => exact Or.inr (Or.inr (Or.inr (Or.inr rfl)))
      | some pt =>
        rcases detectFromPkg_cases pkg _ _ pt hd with h | h | h | h
        · exact Or.inl h
        · exact Or.inr (Or.inl h)
        · exact Or.inr (Or.inr (Or.inl h))
        · exact Or.inr (Or.inr (Or.inr (Or.inl h)))
  · exact Or.inr (Or.inr (Or.inr (Or.inr rfl)))

/-- A static classification always carries the build command npm run
build. -/
theorem detect_static_build (pds : ProjectDirState)
    (h : (detect_project_type pds).category = "static".data) :
    (detect_project_type pds).build_command = some ( "npm run build".data) := by
  rcases detect_cases pds with hc | hc | hc | hc | hc
  · rw [hc]
    rfl
  · rw [hc]
    rfl
  · rw [hc]
    rfl
  · rw [hc]
    rfl
  · rw [hc] at h
    exact absurd h (by decide)

/-- On every analyzer result, the code's projection agrees with the
specification's static projection. -/
theorem entryProj_analyze (name content : Chars) (fs : Chars → Option ProjectDirState) :
    entryProj (analyze_deploy_script name content fs)
      = staticProjection (analyze_deploy_script name content fs) := by
  cases hw : pyTruthy (findWorkingDir (scriptLines content)) with
  | false =>
    have hph := detectPhase_of_not_truthy fs (findWorkingDir (scriptLines content))
      ((commandLines (scriptLines content)).getLast?) hw
    have h1 : (analyze_deploy_script name content fs).project_type = none := by
      rw [analyze_pt_eq, hph]
    have h2 : (analyze_deploy_script name content fs).recommended_command = none := by
      rw [analyze_rec_eq, hph]
    simp [entryProj, staticProjection, h1, h2, pyTruthy]
  | true =>
    cases hfs : fs ((findWorkingDir (scriptLines content)).getD []) with
    | none =>
      have hph := detectPhase_of_fs_none fs _
        ((commandLines (scriptLines content)).getLast?) hw hfs
      have h1 : (analyze_deploy_script name content fs).project_type = none := by
        rw [analyze_pt_eq, hph]
      have h2 : (analyze_deploy_script name content fs).recommended_command = none := by
        rw [analyze_rec_eq, hph]
      simp [entryProj, staticProjection, h1, h2, pyTruthy]
    | some pds =>
      have hph := detectPhase_of_fs_some fs _
        ((commandLines (scriptLines content)).getLast?) pds hw hfs
      have h1 : (analyze_deploy_script name content fs).project_type
          = some (detect_project_type pds) := by
        rw [analyze_pt_eq, hph]
      have h2 : (analyze_deploy_script name content fs).recommended_command
          = if pyTruthy (detect_project_type pds).build_command
            then (detect_project_type pds).build_command
            else (commandLines (scriptLines content)).getLast? := by
        rw [analyze_rec_eq, hph]
      by_cases hcat : (detect_project_type pds).category = "static".data
      · have hbc := detect_static_build pds hcat
        have hrec : (analyze_deploy_script name content fs).recommended_command
            = some ( "npm run build".data) := by
          rw [h2, hbc]
          rfl
        unfold entryProj staticProjection
        rw [analyze_wd_eq, h1, hrec]
        simp +decide [hw, hcat]
      · have hne : ((detect_project_type pds).category == "static".data) = false :=
          beq_eq_false_iff_ne.mpr hcat
        unfold entryProj staticProjection
        rw [analyze_wd_eq, h1]
        simp [hw, hne]

/-- filterMap after map is filterMap of the composition. -/
theorem filterMap_map_comp {α β γ : Type} (g : α → β) (f : β → Option γ) (l : List α) :
    (l.map g).filterMap f = l.filterMap (fun a => f (g a)) := by
  induction l with
  | nil => rfl
  | cons a as ih => simp [List.filterMap_cons, ih]

/-- C6 (confirmed): on a run over an existing directory with at least one
matching script, both machine-readable outputs — the array printed by the
json subcommand and the deploy_commands.json file written by the analyze
subcommand — are exactly the static projection of the analysis results,
{dir, command, type} for results with a static category and nothing for the
rest, in the order of the sorted discovered scripts (the order in which
runPipeline analyzes them). -/
theorem json_output_static_projection (dirName : Chars)
    (files : List (Chars × Chars)) (fs : Chars → Option ProjectDirState)
    (h : discoverScripts files ≠ []) :
    output_json_only true dirName files fs
        = .jentries ((runPipeline files fs).filterMap staticProjection) ∧
      infer_deploy_commands_savedJson true files fs
        = some ((runPipeline files fs).filterMap staticProjection) := by
  have key : deployCommandsJson
      ((discoverScripts files).map (fun f => analyze_deploy_script f.1 f.2 fs))
      = (runPipeline files fs).filterMap staticProjection := by
    rw [deployCommandsJson, runPipeline, filterMap_map_comp, filterMap_map_comp]
    apply List.filterMap_congr
    intro f _
    exact entryProj_analyze f.1 f.2 fs
  constructor
  · simp only [output_json_only, Bool.not_true, Bool.false_eq_true, if_false, if_neg h]
    rw [key]
  · simp only [infer_deploy_commands_savedJson, Bool.not_true, Bool.false_eq_true,
      if_false, if_neg h]
    rw [key]

/-- Witness for C6 at the concrete vite scenario. -/
theorem json_output_static_projection_witness :
    output_json_only true ( "t".data) filesApp fsApp
        = .jentries ((runPipeline filesApp fsApp).filterMap staticProjection) ∧
      infer_deploy_commands_savedJson true filesApp fsApp
        = some ((runPipeline filesApp fsApp).filterMap staticProjection) :=
  json_output_static_projection ( "t".data) filesApp fsApp (by decide)

/-! ## C7: the generated script visits exactly the emitted dirs -/

/-- A prefix hit on an appended list restricts to a prefix hit on its fixed
front. -/
theorem leadsWith_take : ∀ (fix p v : Chars),
    leadsWith p (fix ++ v) = true → leadsWith (p.take fix.length) fix = true := by
  intro fix
  induction fix with
  | nil => intro p v _; rfl
  | cons f fs ih =>
    intro p v h
    cases p with
    | nil => rfl
    | cons a as =>
      rw [List.cons_append] at h
      simp only [List.length_cons, List.take_succ_cons, leadsWith, Bool.and_eq_true] at h ⊢
      exact ⟨h.1, ih as v h.2⟩

/-- Contrapositive form: a mismatch within the fixed front refutes the
prefix on any extension. -/
theorem leads_false_of_take (fix p v : Chars)
    (h : leadsWith (p.take fix.length) fix = false) :
    leadsWith p (fix ++ v) = false := by
  cases hl : leadsWith p (fix ++ v) with
  | false => rfl
  | true => exact absurd (leadsWith_take fix p v hl) (by rw [h]; simp)

/-- A list leads with itself. -/
theorem leadsWith_append_self : ∀ (p v : Chars), leadsWith p (p ++ v) = true := by
  intro p v
  induction p with
  | nil => rfl
  | cons a as ih => simp [leadsWith, ih]

theorem cdTargets_append (l1 l2 : List Chars) :
    cdTargets (l1 ++ l2) = cdTargets l1 ++ cdTargets l2 := by
  simp [cdTargets]

theorem cdTargets_cons_none (l : Chars) (ls : List Chars) (h : cdTargetOf l = none) :
    cdTargets (l :: ls) = cdTargets ls := by
  simp [cdTargets, List.filterMap_cons, h]

theorem cdTargets_cons_some (l : Chars) (ls : List Chars) (t : Chars)
    (h : cdTargetOf l = some t) : cdTargets (l :: ls) = t :: cdTargets ls := by
  simp [cdTargets, List.filterMap_cons, h]

/-- A line whose fixed front mismatches the marker is not a directory
change. -/
theorem cdTargetOf_none_of_take (fix v : Chars)
    (h : leadsWith (cdMarker.take fix.length) fix = false) :
    cdTargetOf (fix ++ v) = none := by
  unfold cdTargetOf
  rw [leads_false_of_take fix cdMarker v h]
  rfl

/-- The fixed header changes only into the base directory itself, never
into a `$BASE_DIR/`-relative directory. -/
theorem cdTargets_header (baseDir : Chars) : cdTargets (headerLines baseDir) = [] := by
  have hB : cdTargetOf ( "BASE_DIR=\"".data ++ baseDir ++ "\"".data) = none := by
    rw [List.append_assoc]
    exact cdTargetOf_none_of_take _ _ (by decide)
  show cdTargets ([ "#!/bin/bash".data,
      "# 自动生成的部署脚本".data,
      "# 功能: 进入目录、执行构建命令、复制dist产物到/website目录".data,
      "".data,
      "set -e  # 遇到错误立即退出".data,
      "".data,
      "# 输出目录".data,
      "OUTPUT_DIR=\"$1\"".data,
      "# 脚本基础目录".data] ++
    (( "BASE_DIR=\"".data ++ baseDir ++ "\"".data) ::
      [ "cd \"$BASE_DIR\"".data, "".data])) = []
  rw [cdTargets_append, cdTargets_cons_none _ _ hB]
  decide

/-- A static project block changes into exactly its working directory. -/
theorem cdTargets_blockLines (script d wd rc : Chars) :
    cdTargets (blockLines script (some d) wd ( "npm install && ".data ++ rc)) = [wd] := by
  have h1 : cdTargetOf ( "# 项目: ".data ++ script) = none :=
    cdTargetOf_none_of_take _ _ (by decide)
  have h2 : cdTargetOf ( "# 类型: ".data ++ d) = none :=
    cdTargetOf_none_of_take _ _ (by decide)
  have hblank : cdTargetOf ( "".data) = none := by decide
  have h4 : cdTargetOf ( "echo \"进入目录: ".data ++ wd ++ "\"".data) = none := by
    rw [List.append_assoc]
    exact cdTargetOf_none_of_take _ _ (by decide)
  have h5 : cdTargetOf ( "cd \"$BASE_DIR/".data ++ wd ++ "\"".data) = some wd := by
    have ht : leadsWith cdMarker ( "cd \"$BASE_DIR/".data ++ wd ++ "\"".data) = true := by
      rw [List.append_assoc]
      exact leadsWith_append_self cdMarker _
    have e5 : ((( "cd \"$BASE_DIR/".data ++ wd ++ "\"".data)).drop cdMarker.length).dropLast
        = wd := by
      rw [List.append_assoc]
      show ((cdMarker ++ (wd ++ "\"".data)).drop cdMarker.length).dropLast = wd
      rw [List.drop_left]
      rw [show ( "\"".data) = ['"'] from rfl]
      simp
    unfold cdTargetOf
    rw [ht, e5]
    rfl
  have h7 : cdTargetOf ( "echo \"执行构建命令: ".data ++
      ( "npm install && ".data ++ rc) ++ "\"".data) = none := by
    rw [List.append_assoc]
    exact cdTargetOf_none_of_take _ _ (by decide)
  have h8 : cdTargetOf ( "npm install && ".data ++ rc) = none :=
    cdTargetOf_none_of_take _ _ (by decide)
  have h9 : cdTargetOf ( "echo \"复制dist产物到$\x7bOUTPUT_DIR\x7d目录\"".data) = none := by
    decide
  have h10 : cdTargetOf ( "if [ -d \"$BASE_DIR/".data ++ wd ++ "/dist\" ]; then".data)
      = none := by
    rw [List.append_assoc]
    exact cdTargetOf_none_of_take _ _ (by decide)
  show cdTargets (( "# 项目: ".data ++ script) ::
      ( "# 类型: ".data ++ d) ::
      ( "".data) ::
      ( "echo \"进入目录: ".data ++ wd ++ "\"".data) ::
      ( "cd \"$BASE_DIR/".data ++ wd ++ "\"".data) ::
      ( "".data) ::
      ( "echo \"执行构建命令: ".data ++ ( "npm install && ".data ++ rc) ++ "\"".data) ::
      (( "npm install && ".data ++ rc)) ::
      ( "".data) ::
      ( "echo \"复制dist产物到$\x7bOUTPUT_DIR\x7d目录\"".data) ::
      (( "if [ -d \"$BASE_DIR/".data ++ wd ++ "/dist\" ]; then".data) ::
        [ "    mkdir -p $OUTPUT_DIR".data,
          "    cp -r dist/* $OUTPUT_DIR".data,
          "    echo \"复制完成\"".data,
          "else".data,
          "    echo \"警告: dist目录不存在，跳过复制\"".data,
          "fi".data,
          "".data,
          "echo \"---\"".data,
          "".data])) = [wd]
  rw [cdTargets_cons_none _ _ h1, cdTargets_cons_none _ _ h2,
    cdTargets_cons_none _ _ hblank, cdTargets_cons_none _ _ h4,
    cdTargets_cons_some _ _ _ h5, cdTargets_cons_none _ _ hblank,
    cdTargets_cons_none _ _ h7, cdTargets_cons_none _ _ h8,
    cdTargets_cons_none _ _ hblank, cdTargets_cons_none _ _ h9,
    cdTargets_cons_none _ _ h10]
  rw [show cdTargets [ "    mkdir -p $OUTPUT_DIR".data,
      "    cp -r dist/* $OUTPUT_DIR".data,
      "    echo \"复制完成\"".data,
      "else".data,
      "    echo \"警告: dist目录不存在，跳过复制\"".data,
      "fi".data,
      "".data,
      "echo \"---\"".data,
      "".data] = [] from by decide]

/-- Analyzer results never carry a recommendation without a project type. -/
theorem analyze_pt_none_rec_none (name content : Chars)
    (fs : Chars → Option ProjectDirState)
    (h : (analyze_deploy_script name content fs).project_type = none) :
    (analyze_deploy_script name content fs).recommended_command = none := by
  cases hw : pyTruthy (findWorkingDir (scriptLines content)) with
  | false => rw [analyze_rec_eq, detectPhase_of_not_truthy fs _ _ hw]
  | true =>
    cases hfs : fs ((findWorkingDir (scriptLines content)).getD []) with
    | none => rw [analyze_rec_eq, detectPhase_of_fs_none fs _ _ hw hfs]
    | some pds =>
      rw [analyze_pt_eq, detectPhase_of_fs_some fs _ _ pds hw hfs] at h
      exact absurd h (by simp)

/-- On a result that cannot recommend without a detected type, the block of
the generated script changes into exactly the directory of the result's
deploy entry — nothing when the result is dropped. -/
theorem cdTargets_generateBlock (r : AnalysisResult)
    (hr : r.project_type = none → r.recommended_command = none) :
    cdTargets (generateBlock r) = ((entryProj r).map (fun e => e.dir)).toList := by
  cases hg : (pyTruthy r.working_dir && pyTruthy r.recommended_command) with
  | false => simp [generateBlock, entryProj, hg, cdTargets]
  | true =>
    have hg' := hg
    simp only [Bool.and_eq_true] at hg'
    obtain ⟨hwt, hrc⟩ := hg'
    cases hpt : r.project_type with
    | none =>
      rw [hr hpt] at hrc
      exact absurd hrc (by simp [pyTruthy])
    | some pt =>
      by_cases hcat : (pt.category == "static".data) = true
      · have hgb : generateBlock r = blockLines r.script (some pt.description)
            (r.working_dir.getD []) ( "npm install && ".data ++ r.recommended_command.getD []) := by
          unfold generateBlock
          rw [hg, hpt]
          simp [hcat]
        have hep : entryProj r = some { dir := r.working_dir.getD [],
                                        command := r.recommended_command.getD [],
                                        type := "frontend".data } := by
          unfold entryProj
          rw [hg, hpt]
          simp [hcat]
        rw [hgb, hep, cdTargets_blockLines]
        rfl
      · have hcat' : (pt.category == "static".data) = false := by
          cases hh : (pt.category == "static".data) with
          | false => rfl
          | true => exact absurd hh hcat
        have hgb : generateBlock r = [] := by
          unfold generateBlock
          rw [hg, hpt]
          simp [hcat']
        have hep : entryProj r = none := by
          unfold entryProj
          rw [hg, hpt]
          simp [hcat']
        rw [hgb, hep]
        rfl

/-- Concatenating the blocks of a result list visits exactly the dirs of
its entry projection, in order. -/
theorem cdTargets_flatten_blocks (results : List AnalysisResult)
    (h : ∀ r ∈ results, r.project_type = none → r.recommended_command = none) :
    cdTargets ((results.map generateBlock).flatten)
      = (results.filterMap entryProj).map (fun e => e.dir) := by
  induction results with
  | nil => rfl
  | cons r rs ih =>
    simp only [List.map_cons, List.flatten_cons, List.filterMap_cons]
    rw [cdTargets_append, cdTargets_generateBlock r (h r (by simp))]
    have ih' := ih (fun x hx => h x (by simp [hx]))
    cases he : entryProj r with
    | none => simp [ih']
    | some e => simp [ih']

/-- C7 (confirmed): over the same directory, the sequence of working
directories the generated script changes into (its `cd "$BASE_DIR/..."`
targets, in order) coincides with the dir fields of the array emitted by
the json subcommand; on the error paths both sequences are empty. -/
theorem script_json_roundtrip (dirExists : Bool) (dirName : Chars)
    (files : List (Chars × Chars)) (fs : Chars → Option ProjectDirState) :
    scriptCdSeq (generate_shell_script dirExists dirName files fs)
      = jsonDirSeq (output_json_only dirExists dirName files fs) := by
  cases dirExists with
  | false => rfl
  | true =>
    by_cases hs : discoverScripts files = []
    · simp [generate_shell_script, output_json_only, hs, scriptCdSeq, jsonDirSeq]
    · simp only [generate_shell_script, output_json_only, Bool.not_true,
        Bool.false_eq_true, if_false, if_neg hs, scriptCdSeq, jsonDirSeq,
        deployCommandsJson]
      rw [cdTargets_append, cdTargets_header, List.nil_append]
      apply cdTargets_flatten_blocks
      intro r hr
      obtain ⟨f, -, hf⟩ := List.mem_map.mp hr
      rw [← hf]
      exact analyze_pt_none_rec_none f.1 f.2 fs
